import Mathlib

/-!
# Partial-solution representation of the guillotine cutting solver

Shallow embedding of `src/lib/solution.hpp` (namespace `roadef2018`).

The header fixes the data model (`SolutionNode`, `SolutionItem`, `Insertion`,
`CutInfo`, `Front`, the private members of `Solution` with their default member
initialisers) and the inline read accessors (`x1_curr` .. `x3_prev`, `front`,
`z1`, `z2`, `pos_stack`, ...).  Those are translated from the header.

The bodies of `Solution::Solution`, `Solution::add_item` and
`Solution::dominates` are only declared in the header.  Where a statement needs
one of them, the definition used here is marked `Modelled from the spec:`.

Conventions
* The integer typedefs (`Length`, `ItemId`, `StackId`, `PlateId`, `Cpt`, `Area`)
  come from `instance.hpp`; they are signed machine integers and are embedded
  as `Int`.  The only arithmetic in the embedded code is `plate_number() - 1`.
* `std::vector::operator[]` has no defined result out of range, so every read
  of a vector element is embedded as an `Option`.
* `std::array<CutInfo, 4>` is a record of four entries read through `Fin 4`.
-/

namespace roadef2018

abbrev SolutionNodeId := Int
abbrev Depth := Int
abbrev Length := Int
abbrev Area := Int
abbrev ItemId := Int
abbrev StackId := Int
abbrev PlateId := Int
abbrev Cpt := Int

/-- Node of the cut tree: `f` is the father (or `-plate-1` for a 1-cut), `p` the
x position of a 1-cut or 3-cut and the y position of a 2-cut. -/
structure SolutionNode where
  f : SolutionNodeId
  p : Length
deriving DecidableEq, Repr

/-- Entry of the item table: item `j` sits in tree node `node`. -/
structure SolutionItem where
  j : ItemId
  node : SolutionNodeId
deriving DecidableEq, Repr

/-- Candidate move, as declared in the header. -/
structure Insertion where
  j1 : ItemId
  j2 : ItemId
  df : Depth
  x1 : Length
  y2 : Length
  x3 : Length
  x1_max : Length
  y2_max : Length
  z1 : Cpt
  z2 : Cpt
deriving DecidableEq, Repr

/-- Summary of one cut group: its node, item count `n` and bounding box. -/
structure CutInfo where
  node : SolutionNodeId
  n : ItemId
  l : Length
  b : Length
  r : Length
  t : Length
deriving DecidableEq, Repr

/-- Snapshot of the front, as declared in the header. -/
structure Front where
  p : PlateId
  x1_prev : Length
  x3_curr : Length
  x1_curr : Length
  y2_prev : Length
  y2_curr : Length
  z1 : Cpt
  z2 : Cpt
deriving DecidableEq, Repr

/-- Item placed above a defect in the current 2-cut (`Orientation` is an
enumeration of `instance.hpp`, kept as an integer). -/
structure ItemOrientationX where
  j : ItemId
  o : Int
  x : Length
deriving DecidableEq, Repr

/-- The type `std::array<CutInfo, 4>`: one entry per depth index 0..3. -/
structure CutArray where
  c0 : CutInfo
  c1 : CutInfo
  c2 : CutInfo
  c3 : CutInfo
deriving DecidableEq, Repr

/-- Element access `a[d]` for an index inside the array. -/
def CutArray.get (a : CutArray) (d : Fin 4) : CutInfo :=
  match d with
  | 0 => a.c0
  | 1 => a.c1
  | 2 => a.c2
  | 3 => a.c3

/-- The initialiser `{.node = -1}`: the members left out are zero. -/
def CutInfo.absent : CutInfo :=
  { node := -1, n := 0, l := 0, b := 0, r := 0, t := 0 }

/-- The initialiser `{{{.node = -1}, {.node = -1}, {.node = -1}, {.node = -1}}}`. -/
def CutArray.absent : CutArray :=
  { c0 := CutInfo.absent, c1 := CutInfo.absent, c2 := CutInfo.absent, c3 := CutInfo.absent }

/-- Private state of `class Solution`.  The reference `instance_` is external
and passed separately where it is read; the two public members
`pos_artificial_stack_1/2` have no initialiser and no accessor below reads them. -/
structure Solution where
  nodes_ : List SolutionNode
  pos_stack_ : List ItemId
  items_ : List SolutionItem
  plate_number_ : PlateId
  item_area_ : Area
  current_area_ : Area
  waste_ : Area
  width_ : Length
  curr_cut_ : CutArray
  prev_cut_ : CutArray
  x1_max_ : Length
  y2_max_ : Length
  z1_ : Cpt
  z2_ : Cpt
  df_min_ : Cpt
  yy_ : List ItemOrientationX
deriving DecidableEq, Repr

/-- Element read `v[i]` of a `std::vector` with a signed index. -/
def vec_at {α : Type} (v : List α) (i : Int) : Option α :=
  if i < 0 then none else v[i.toNat]?

namespace Solution

/-- State given by the default member initialisers of the class. -/
def defaults : Solution :=
  { nodes_ := []
    pos_stack_ := []
    items_ := []
    plate_number_ := 0
    item_area_ := 0
    current_area_ := 0
    waste_ := 0
    width_ := 0
    curr_cut_ := CutArray.absent
    prev_cut_ := CutArray.absent
    x1_max_ := -1
    y2_max_ := -1
    z1_ := 0
    z2_ := 0
    df_min_ := -1
    yy_ := [] }

def item_number (S : Solution) : ItemId := (S.items_.length : Int)
def item_area (S : Solution) : Area := S.item_area_
def waste (S : Solution) : Area := S.waste_
def area (S : Solution) : Area := S.current_area_
def width (S : Solution) : Length := S.width_
def plate_number (S : Solution) : PlateId := S.plate_number_

def nodes (S : Solution) : List SolutionNode := S.nodes_
def node (S : Solution) (id : SolutionNodeId) : Option SolutionNode := vec_at S.nodes_ id
def node_number (S : Solution) : SolutionNodeId := (S.nodes_.length : Int)
def item (S : Solution) (j : ItemId) : Option SolutionItem := vec_at S.items_ j
def items (S : Solution) : List SolutionItem := S.items_

def prev_cut (S : Solution) (d : Fin 4) : CutInfo := S.prev_cut_.get d
def curr_cut (S : Solution) (d : Fin 4) : CutInfo := S.curr_cut_.get d

def x1_curr (S : Solution) : Option Length :=
  if (S.curr_cut 1).node = -1 then some 0 else (S.node (S.curr_cut 1).node).map (fun nd => nd.p)
def x1_prev (S : Solution) : Option Length :=
  if (S.prev_cut 1).node = -1 then some 0 else (S.node (S.prev_cut 1).node).map (fun nd => nd.p)
def y2_curr (S : Solution) : Option Length :=
  if (S.curr_cut 2).node = -1 then some 0 else (S.node (S.curr_cut 2).node).map (fun nd => nd.p)
def y2_prev (S : Solution) : Option Length :=
  if (S.prev_cut 2).node = -1 then some 0 else (S.node (S.prev_cut 2).node).map (fun nd => nd.p)
def x3_curr (S : Solution) : Option Length :=
  if (S.curr_cut 3).node = -1 then S.x1_prev else (S.node (S.curr_cut 3).node).map (fun nd => nd.p)
def x3_prev (S : Solution) : Option Length :=
  if (S.prev_cut 3).node = -1 then S.x1_prev else (S.node (S.prev_cut 3).node).map (fun nd => nd.p)

def x1_max (S : Solution) : Length := S.x1_max_
def y2_max (S : Solution) : Length := S.y2_max_
def z1 (S : Solution) : Cpt := S.z1_
def z2 (S : Solution) : Cpt := S.z2_

/-- The accessor `front()`: the members are evaluated in declaration order and
the snapshot exists when each coordinate read does. -/
def front (S : Solution) : Option Front :=
  match S.x1_prev, S.x3_curr, S.x1_curr, S.y2_prev, S.y2_curr with
  | some a, some b, some c, some d, some e =>
    some { p := S.plate_number - 1, x1_prev := a, x3_curr := b, x1_curr := c,
           y2_prev := d, y2_curr := e, z1 := S.z1, z2 := S.z2 }
  | _, _, _, _, _ => none

def pos_stack (S : Solution) (s : StackId) : Option ItemId := vec_at S.pos_stack_ s

/-- Modelled from the spec: the constructor `Solution::Solution(const Instance&)`,
declared in the header without a body.  "A Solution begins empty (no nodes, all
cursors 0, all cut-front entries empty)": every member has its default
initialiser and the cursor table holds one zero per stack of the instance. -/
def fresh (stack_number : Nat) : Solution :=
  { defaults with pos_stack_ := List.replicate stack_number 0 }

end Solution

/-! ### Stack sequencing of a commit -/

/-- Modelled from the spec: the part of the external instance catalogue
(`instance.hpp`) that a commit reads for sequencing, "stack membership": the
number of stacks and the stack of each item id. -/
structure Instance where
  stack_number : Nat
  stack_of : ItemId → StackId

/-- Modelled from the spec: the items an `Insertion` places, "one or two item
ids (second is absent when only one item is placed)", none for a move that
places no item; an absent id is the sentinel `-1` used throughout the header. -/
def Insertion.placed (i : Insertion) : List ItemId :=
  [i.j1, i.j2].filter (fun j => j != -1)

/-- The statement `pos[s]++` on the cursor table; an index outside the table
has no defined result. -/
def advance_cursor (pos : List ItemId) (s : StackId) : Option (List ItemId) :=
  match vec_at pos s with
  | none => none
  | some k => some (pos.set s.toNat (k + 1))

/-- Modelled from the spec: "advances the corresponding stack cursor(s) by one
each", for the placed items in order. -/
def advance_cursors (inst : Instance) : List ItemId → List ItemId → Option (List ItemId)
  | [], pos => some pos
  | j :: js, pos =>
    match advance_cursor pos (inst.stack_of j) with
    | none => none
    | some pos1 => advance_cursors inst js pos1

/-- Number of entries of an item table whose item belongs to stack `s`. -/
def items_of_stack (inst : Instance) (s : StackId) (items : List SolutionItem) : Int :=
  ((items.countP (fun it => inst.stack_of it.j == s) : Nat) : Int)

/-- Modelled from the spec: what a commit `Solution::add_item` (declared in the
header without a body) does to the arena, the item table and the cursors.
`add_item_commits inst S i T` holds when `T` can be the state after
`S.add_item(i, info)`:
* "no node is ever removed, only appended": the arena of `S` is a prefix of the
  arena of `T`;
* "registers the placed item(s) against the appropriate node": the item table
  of `T` is the table of `S` followed by one entry per placed item, in order,
  each pointing at a node of the new arena;
* "advances the corresponding stack cursor(s) by one each".
The geometry of the new nodes, the cut front and the area totals are not
constrained. -/
def add_item_commits (inst : Instance) (S : Solution) (i : Insertion) (T : Solution) : Bool :=
  S.nodes_.isPrefixOf T.nodes_
  && (T.items_.take S.items_.length == S.items_)
  && ((T.items_.drop S.items_.length).map (fun it => it.j) == i.placed)
  && (T.items_.drop S.items_.length).all (fun it => (T.node it.node).isSome)
  && (advance_cursors inst i.placed S.pos_stack_ == some T.pos_stack_)

/-- States reached from a freshly constructed solution by commits. -/
inductive Reachable (inst : Instance) : Solution → Prop
  | fresh : Reachable inst (Solution.fresh inst.stack_number)
  | add_item (S : Solution) (i : Insertion) (T : Solution) :
      Reachable inst S → add_item_commits inst S i T = true → Reachable inst T

/-! ### Dominance between fronts -/

/-- Modelled from the spec: the configuration record `GlobalParam` (declared
outside the header), reduced to the one setting the comparator reads, the
"dominance tolerance", a non-negative length. -/
structure GlobalParam where
  dominance_tolerance : Nat

/-- Modelled from the spec: "at least as small ... as f2's corresponding
coordinate within the configured tolerance". -/
def within_tolerance (g : GlobalParam) (a b : Length) : Bool :=
  decide (a ≤ b + (g.dominance_tolerance : Int))

/-- Modelled from the spec: how permissive a `z1` flag is, "0 = widening needs at
least the minimum-waste margin; 1 = may widen freely". -/
def z1_permissive (z : Cpt) : Int := z

/-- Modelled from the spec: how permissive a `z2` flag is: as for `z1`, and "2 =
the 2-cut's height is frozen", which is below the two other states. -/
def z2_permissive (z : Cpt) : Int := if z = 2 then -1 else z

/-- Modelled from the spec: `Solution::dominates` (static, declared in the header
without a body).  "f1 dominates f2 iff f1 is on the same plate, every one of
f1's boundary coordinates is at least as small ... as f2's corresponding
coordinate within the configured tolerance, and f1's z-flags are at least as
permissive as f2's." -/
def Solution.dominates (f1 f2 : Front) (g : GlobalParam) : Bool :=
  (f1.p == f2.p)
  && within_tolerance g f1.x1_prev f2.x1_prev
  && within_tolerance g f1.x3_curr f2.x3_curr
  && within_tolerance g f1.x1_curr f2.x1_curr
  && within_tolerance g f1.y2_prev f2.y2_prev
  && within_tolerance g f1.y2_curr f2.y2_curr
  && decide (z1_permissive f2.z1 ≤ z1_permissive f1.z1)
  && decide (z2_permissive f2.z2 ≤ z2_permissive f1.z2)

/-! ### Concrete states used to exercise the statements -/

/-- One plate in progress: a 1-cut at x = 30, a 2-cut at y = 20 and a 3-cut at
x = 12, all open, nothing closed yet. -/
def sample_open : Solution :=
  { Solution.defaults with
    nodes_ := [⟨-1, 30⟩, ⟨0, 20⟩, ⟨1, 12⟩]
    plate_number_ := 1
    curr_cut_ :=
      { c0 := CutInfo.absent
        c1 := { node := 0, n := 1, l := 0, b := 0, r := 30, t := 20 }
        c2 := { node := 1, n := 1, l := 0, b := 0, r := 12, t := 20 }
        c3 := { node := 2, n := 1, l := 0, b := 0, r := 12, t := 20 } }
    z1_ := 1
    z2_ := 2 }

/-- Same arena and same node ids in the front as `sample_open`, every stored
bounding box and item count different. -/
def sample_open_other_boxes : Solution :=
  { sample_open with
    curr_cut_ :=
      { c0 := CutInfo.absent
        c1 := { node := 0, n := 7, l := 1, b := 2, r := 3, t := 4 }
        c2 := { node := 1, n := 8, l := 5, b := 6, r := 7, t := 8 }
        c3 := { node := 2, n := 9, l := 9, b := 8, r := 7, t := 6 } }
    prev_cut_ :=
      { c0 := CutInfo.absent
        c1 := { node := -1, n := 3, l := 4, b := 4, r := 4, t := 4 }
        c2 := { node := -1, n := 2, l := 5, b := 5, r := 5, t := 5 }
        c3 := { node := -1, n := 1, l := 6, b := 6, r := 6, t := 6 } } }

/-- Two stacks: items 0 and 1 form stack 0, every other item is in stack 1. -/
def two_stacks : Instance :=
  { stack_number := 2, stack_of := fun j => if j < 2 then 0 else 1 }

/-- A move that places items 0 and 2 together. -/
def place_0_and_2 : Insertion :=
  { j1 := 0, j2 := 2, df := -1, x1 := 30, y2 := 20, x3 := 30, x1_max := 100, y2_max := 100,
    z1 := 0, z2 := 2 }

/-- A move that places item 1 alone. -/
def place_1 : Insertion :=
  { j1 := 1, j2 := -1, df := 2, x1 := 30, y2 := 20, x3 := 45, x1_max := 100, y2_max := 100,
    z1 := 0, z2 := 0 }

/-- A state after `place_0_and_2` on the fresh solution of `two_stacks`: both
items sit in the same new node. -/
def after_first_commit : Solution :=
  { Solution.fresh 2 with
    nodes_ := [⟨-1, 30⟩, ⟨0, 20⟩, ⟨1, 30⟩]
    items_ := [⟨0, 2⟩, ⟨2, 2⟩]
    pos_stack_ := [1, 1]
    plate_number_ := 1 }

/-- A state after `place_1` on `after_first_commit`. -/
def after_second_commit : Solution :=
  { after_first_commit with
    nodes_ := [⟨-1, 30⟩, ⟨0, 20⟩, ⟨1, 30⟩, ⟨1, 45⟩]
    items_ := [⟨0, 2⟩, ⟨2, 2⟩, ⟨1, 3⟩]
    pos_stack_ := [2, 1] }

/-- A second strip: the 1-cut at x = 30 is closed, a 1-cut at x = 50 is open and
no 3-cut is open in it. -/
def sample_second_strip : Solution :=
  { Solution.defaults with
    nodes_ := [⟨-1, 30⟩, ⟨0, 20⟩, ⟨-1, 50⟩, ⟨2, 10⟩]
    plate_number_ := 1
    prev_cut_ :=
      { c0 := CutInfo.absent
        c1 := { node := 0, n := 1, l := 0, b := 0, r := 30, t := 20 }
        c2 := CutInfo.absent
        c3 := CutInfo.absent }
    curr_cut_ :=
      { c0 := CutInfo.absent
        c1 := { node := 2, n := 0, l := 30, b := 0, r := 50, t := 10 }
        c2 := { node := 3, n := 0, l := 30, b := 0, r := 50, t := 10 }
        c3 := CutInfo.absent } }

/-! ## Read accessors of the cut front -/

theorem vec_at_nil {α : Type} (i : Int) : vec_at ([] : List α) i = none := by
  unfold vec_at
  split <;> simp

theorem vec_at_replicate {α : Type} (n : Nat) (a : α) (i : Int) (h0 : 0 ≤ i)
    (hn : i < (n : Int)) : vec_at (List.replicate n a) i = some a := by
  unfold vec_at
  have hlt : i.toNat < n := by omega
  have hneg : ¬ i < 0 := by omega
  simp [hneg, List.getElem?_replicate, hlt]

/-- C6: each of `x1_curr`, `x1_prev`, `y2_curr`, `y2_prev` reads 0 when the node
id of its front entry (`curr_cut(1)`, `prev_cut(1)`, `curr_cut(2)`,
`prev_cut(2)`) is the sentinel -1 and otherwise reads `p` of the arena node with
that id; two states whose entry has the same node id, and whose arenas give
that node the same `p`, read the same value, whatever the stored boxes and
counts are. -/
theorem sentinel_read_back (S T : Solution) :
    ((S.curr_cut 1).node = -1 → S.x1_curr = some 0)
    ∧ ((S.curr_cut 1).node ≠ -1 →
        S.x1_curr = (S.node (S.curr_cut 1).node).map (fun nd => nd.p))
    ∧ ((S.prev_cut 1).node = -1 → S.x1_prev = some 0)
    ∧ ((S.prev_cut 1).node ≠ -1 →
        S.x1_prev = (S.node (S.prev_cut 1).node).map (fun nd => nd.p))
    ∧ ((S.curr_cut 2).node = -1 → S.y2_curr = some 0)
    ∧ ((S.curr_cut 2).node ≠ -1 →
        S.y2_curr = (S.node (S.curr_cut 2).node).map (fun nd => nd.p))
    ∧ ((S.prev_cut 2).node = -1 → S.y2_prev = some 0)
    ∧ ((S.prev_cut 2).node ≠ -1 →
        S.y2_prev = (S.node (S.prev_cut 2).node).map (fun nd => nd.p))
    ∧ ((T.curr_cut 1).node = (S.curr_cut 1).node →
        (T.node (S.curr_cut 1).node).map (fun nd => nd.p)
          = (S.node (S.curr_cut 1).node).map (fun nd => nd.p) →
        T.x1_curr = S.x1_curr)
    ∧ ((T.prev_cut 1).node = (S.prev_cut 1).node →
        (T.node (S.prev_cut 1).node).map (fun nd => nd.p)
          = (S.node (S.prev_cut 1).node).map (fun nd => nd.p) →
        T.x1_prev = S.x1_prev)
    ∧ ((T.curr_cut 2).node = (S.curr_cut 2).node →
        (T.node (S.curr_cut 2).node).map (fun nd => nd.p)
          = (S.node (S.curr_cut 2).node).map (fun nd => nd.p) →
        T.y2_curr = S.y2_curr)
    ∧ ((T.prev_cut 2).node = (S.prev_cut 2).node →
        (T.node (S.prev_cut 2).node).map (fun nd => nd.p)
          = (S.node (S.prev_cut 2).node).map (fun nd => nd.p) →
        T.y2_prev = S.y2_prev) := by
  refine ⟨?_, ?_, ?_, ?_, ?_, ?_, ?_, ?_, ?_, ?_, ?_, ?_⟩
  · intro h; simp [Solution.x1_curr, h]
  · intro h; simp [Solution.x1_curr, h]
  · intro h; simp [Solution.x1_prev, h]
  · intro h; simp [Solution.x1_prev, h]
  · intro h; simp [Solution.y2_curr, h]
  · intro h; simp [Solution.y2_curr, h]
  · intro h; simp [Solution.y2_prev, h]
  · intro h; simp [Solution.y2_prev, h]
  · intro h hp; simp only [Solution.x1_curr, h, hp]
  · intro h hp; simp only [Solution.x1_prev, h, hp]
  · intro h hp; simp only [Solution.y2_curr, h, hp]
  · intro h hp; simp only [Solution.y2_prev, h, hp]

/-- The 1-cut and 2-cut reads of `sample_open` survive a change of every stored
box and count, and an absent previous entry reads 0. -/
theorem sentinel_read_back_witness :
    (sample_open_other_boxes.curr_cut 1).node = (sample_open.curr_cut 1).node
    ∧ (sample_open.curr_cut 1).node ≠ -1
    ∧ (sample_open.prev_cut 2).node = -1
    ∧ sample_open_other_boxes.x1_curr = sample_open.x1_curr
    ∧ sample_open.x1_curr = some 30
    ∧ sample_open.y2_prev = some 0 :=
  ⟨by decide, by decide, by decide,
   (sentinel_read_back sample_open sample_open_other_boxes).2.2.2.2.2.2.2.2.1
     (by decide) (by decide),
   ((sentinel_read_back sample_open sample_open_other_boxes).2.1 (by decide)).trans
     (by decide),
   (sentinel_read_back sample_open sample_open_other_boxes).2.2.2.2.2.2.1 (by decide)⟩

/-- C7: `x3_curr` is `x1_prev` when `curr_cut(3).node` is the sentinel -1 and
otherwise `p` of the arena node with that id; `x3_prev` likewise with
`prev_cut(3)`; when the depth-3 entry and `prev_cut(1)` are both absent the
3-cut accessor returns 0. -/
theorem three_cut_fallback (S : Solution) :
    ((S.curr_cut 3).node = -1 → S.x3_curr = S.x1_prev)
    ∧ ((S.curr_cut 3).node ≠ -1 →
        S.x3_curr = (S.node (S.curr_cut 3).node).map (fun nd => nd.p))
    ∧ ((S.prev_cut 3).node = -1 → S.x3_prev = S.x1_prev)
    ∧ ((S.prev_cut 3).node ≠ -1 →
        S.x3_prev = (S.node (S.prev_cut 3).node).map (fun nd => nd.p))
    ∧ ((S.curr_cut 3).node = -1 → (S.prev_cut 1).node = -1 → S.x3_curr = some 0)
    ∧ ((S.prev_cut 3).node = -1 → (S.prev_cut 1).node = -1 → S.x3_prev = some 0) := by
  refine ⟨?_, ?_, ?_, ?_, ?_, ?_⟩
  · intro h; simp [Solution.x3_curr, h]
  · intro h; simp [Solution.x3_curr, h]
  · intro h; simp [Solution.x3_prev, h]
  · intro h; simp [Solution.x3_prev, h]
  · intro h h1; simp [Solution.x3_curr, Solution.x1_prev, h, h1]
  · intro h h1; simp [Solution.x3_prev, Solution.x1_prev, h, h1]

/-- With no 3-cut open in the second strip the 3-cut read is the closed 1-cut,
x = 30; with a 3-cut open it is that cut, x = 12; with nothing closed it is 0. -/
theorem three_cut_fallback_witness :
    (sample_second_strip.curr_cut 3).node = -1
    ∧ sample_second_strip.x3_curr = sample_second_strip.x1_prev
    ∧ sample_second_strip.x1_prev = some 30
    ∧ (sample_open.curr_cut 3).node ≠ -1
    ∧ sample_open.x3_curr = some 12
    ∧ (sample_open.prev_cut 3).node = -1
    ∧ (sample_open.prev_cut 1).node = -1
    ∧ sample_open.x3_prev = some 0 :=
  ⟨by decide,
   (three_cut_fallback sample_second_strip).1 (by decide),
   by decide,
   by decide,
   ((three_cut_fallback sample_open).2.1 (by decide)).trans (by decide),
   by decide,
   by decide,
   (three_cut_fallback sample_open).2.2.2.2.2 (by decide) (by decide)⟩

/-! ## The freshly constructed solution and the front snapshot -/

/-- C8: a freshly constructed solution has no node and no item, every stack
cursor reads 0, every entry of `curr_cut()` and `prev_cut()` has node id -1,
the six coordinate accessors return 0 although no index of the (empty) arena
can be read, and `z1()`, `z2()` are 0. -/
theorem fresh_is_empty (stack_number : Nat) :
    (Solution.fresh stack_number).node_number = 0
    ∧ (Solution.fresh stack_number).item_number = 0
    ∧ (∀ s : StackId, 0 ≤ s → s < (stack_number : Int) →
        (Solution.fresh stack_number).pos_stack s = some 0)
    ∧ (∀ d : Fin 4, ((Solution.fresh stack_number).curr_cut d).node = -1
        ∧ ((Solution.fresh stack_number).prev_cut d).node = -1)
    ∧ (∀ id : SolutionNodeId, (Solution.fresh stack_number).node id = none)
    ∧ (Solution.fresh stack_number).x1_curr = some 0
    ∧ (Solution.fresh stack_number).x1_prev = some 0
    ∧ (Solution.fresh stack_number).y2_curr = some 0
    ∧ (Solution.fresh stack_number).y2_prev = some 0
    ∧ (Solution.fresh stack_number).x3_curr = some 0
    ∧ (Solution.fresh stack_number).x3_prev = some 0
    ∧ (Solution.fresh stack_number).z1 = 0
    ∧ (Solution.fresh stack_number).z2 = 0 := by
  refine ⟨rfl, rfl, ?_, ?_, ?_, rfl, rfl, rfl, rfl, rfl, rfl, rfl, rfl⟩
  · intro s h0 hn
    exact vec_at_replicate stack_number 0 s h0 hn
  · intro d
    fin_cases d <;> exact ⟨rfl, rfl⟩
  · intro id
    exact vec_at_nil id

/-- With three stacks the cursor of stack 2 reads 0. -/
theorem fresh_is_empty_witness :
    (0 : Int) ≤ 2 ∧ (2 : Int) < ((3 : Nat) : Int)
    ∧ (Solution.fresh 3).pos_stack 2 = some 0 :=
  ⟨by decide, by decide, (fresh_is_empty 3).2.2.1 2 (by decide) (by decide)⟩

/-- The three area totals of a freshly constructed solution are 0. -/
theorem fresh_accounting (stack_number : Nat) :
    (Solution.fresh stack_number).waste = 0
    ∧ (Solution.fresh stack_number).item_area = 0
    ∧ (Solution.fresh stack_number).area = 0 :=
  ⟨rfl, rfl, rfl⟩

/-- C9: the snapshot returned by `front()` carries `plate_number() - 1` as plate
id, the values of `x1_prev()`, `x3_curr()`, `x1_curr()`, `y2_prev()`,
`y2_curr()`, and `z1()`, `z2()`; it is returned whenever those five reads are
defined. -/
theorem front_is_snapshot (S : Solution) :
    (∀ f : Front, S.front = some f →
        f.p = S.plate_number - 1
        ∧ S.x1_prev = some f.x1_prev
        ∧ S.x3_curr = some f.x3_curr
        ∧ S.x1_curr = some f.x1_curr
        ∧ S.y2_prev = some f.y2_prev
        ∧ S.y2_curr = some f.y2_curr
        ∧ f.z1 = S.z1
        ∧ f.z2 = S.z2)
    ∧ (∀ a b c d e : Length,
        S.x1_prev = some a → S.x3_curr = some b → S.x1_curr = some c →
        S.y2_prev = some d → S.y2_curr = some e →
        S.front = some
          { p := S.plate_number - 1, x1_prev := a, x3_curr := b, x1_curr := c,
            y2_prev := d, y2_curr := e, z1 := S.z1, z2 := S.z2 }) := by
  constructor
  · intro f hf
    unfold Solution.front at hf
    split at hf
    · rename_i a b c d e ha hb hc hd he
      cases hf
      exact ⟨rfl, ha, hb, hc, hd, he, rfl, rfl⟩
    · cases hf
  · intro a b c d e ha hb hc hd he
    simp [Solution.front, ha, hb, hc, hd, he]

/-- The front of the second strip: plate 0, closed 1-cut at 30, no 3-cut so the
3-cut read falls back to 30, open 1-cut at 50, open 2-cut at 10. -/
theorem front_is_snapshot_witness :
    sample_second_strip.x1_prev = some 30
    ∧ sample_second_strip.x3_curr = some 30
    ∧ sample_second_strip.x1_curr = some 50
    ∧ sample_second_strip.y2_prev = some 0
    ∧ sample_second_strip.y2_curr = some 10
    ∧ sample_second_strip.front = some
        { p := 0, x1_prev := 30, x3_curr := 30, x1_curr := 50,
          y2_prev := 0, y2_curr := 10, z1 := 0, z2 := 0 } :=
  ⟨by decide, by decide, by decide, by decide, by decide,
   (front_is_snapshot sample_second_strip).2 30 30 50 0 10
     (by decide) (by decide) (by decide) (by decide) (by decide)⟩

/-- C10: the front of a freshly constructed solution has plate id -1, all five
coordinates 0 and both flags 0; the constructed state has plate number 0 and no
open or closed cut. -/
theorem fresh_front (stack_number : Nat) :
    (Solution.fresh stack_number).plate_number = 0
    ∧ (∀ d : Fin 4, ((Solution.fresh stack_number).curr_cut d).node = -1
        ∧ ((Solution.fresh stack_number).prev_cut d).node = -1)
    ∧ (Solution.fresh stack_number).front = some
        { p := -1, x1_prev := 0, x3_curr := 0, x1_curr := 0,
          y2_prev := 0, y2_curr := 0, z1 := 0, z2 := 0 } := by
  refine ⟨rfl, ?_, rfl⟩
  intro d
  fin_cases d <;> exact ⟨rfl, rfl⟩

/-! ## Dominance between fronts -/

theorem within_tolerance_refl (g : GlobalParam) (a : Length) :
    within_tolerance g a a = true := by
  simp [within_tolerance]

/-- C4: every front dominates itself, for every parameter record. -/
theorem dominates_refl (f : Front) (g : GlobalParam) :
    Solution.dominates f f g = true := by
  simp [Solution.dominates, within_tolerance_refl]

/-! ## Stack cursors and the item table -/

theorem vec_at_some {α : Type} (v : List α) (i : Int) (a : α) (h : vec_at v i = some a) :
    0 ≤ i ∧ v[i.toNat]? = some a := by
  unfold vec_at at h
  split at h
  · cases h
  · exact ⟨by omega, h⟩

theorem advance_cursor_reads (pos pos1 : List ItemId) (t : StackId)
    (h : advance_cursor pos t = some pos1) (s : StackId) :
    vec_at pos1 s = (vec_at pos s).map (fun k => if s = t then k + 1 else k) := by
  unfold advance_cursor at h
  split at h
  · cases h
  · rename_i k hk
    cases h
    obtain ⟨ht, hget⟩ := vec_at_some pos t k hk
    by_cases hs : s < 0
    · simp [vec_at, hs]
    · by_cases hst : s = t
      · subst hst
        have hlen : s.toNat < pos.length := by
          rcases Nat.lt_or_ge s.toNat pos.length with h1 | h1
          · exact h1
          · rw [List.getElem?_eq_none h1] at hget
            cases hget
        simp [vec_at, hs, List.getElem?_set_self hlen, hget]
      · have hne : t.toNat ≠ s.toNat := by
          unfold StackId at *
          omega
        simp [vec_at, hs, List.getElem?_set_ne hne, hst]

theorem advance_cursor_length (pos pos1 : List ItemId) (t : StackId)
    (h : advance_cursor pos t = some pos1) : pos1.length = pos.length := by
  unfold advance_cursor at h
  split at h
  · cases h
  · cases h
    simp

theorem advance_cursors_reads (inst : Instance) (js : List ItemId) :
    ∀ (pos pos1 : List ItemId), advance_cursors inst js pos = some pos1 →
      ∀ s : StackId, vec_at pos1 s
        = (vec_at pos s).map
            (fun k => k + ((js.countP (fun j => inst.stack_of j == s) : Nat) : Int)) := by
  induction js with
  | nil =>
    intro pos pos1 h s
    simp only [advance_cursors] at h
    cases h
    simp
  | cons j js ih =>
    intro pos pos1 h s
    simp only [advance_cursors] at h
    split at h
    · cases h
    · rename_i pos0 h0
      rw [ih pos0 pos1 h s, advance_cursor_reads pos pos0 _ h0 s, List.countP_cons]
      cases vec_at pos s with
      | none => rfl
      | some k =>
        simp only [Option.map_some', Option.some.injEq]
        by_cases hst : s = inst.stack_of j
        · simp [hst]
          ring
        · have hne : ¬ inst.stack_of j = s := fun e => hst e.symm
          simp [hst, hne]

theorem advance_cursors_length (inst : Instance) (js : List ItemId) :
    ∀ (pos pos1 : List ItemId), advance_cursors inst js pos = some pos1 →
      pos1.length = pos.length := by
  induction js with
  | nil =>
    intro pos pos1 h
    simp only [advance_cursors] at h
    cases h
    rfl
  | cons j js ih =>
    intro pos pos1 h
    simp only [advance_cursors] at h
    split at h
    · cases h
    · rename_i pos0 h0
      rw [ih pos0 pos1 h, advance_cursor_length pos pos0 _ h0]

theorem advance_cursors_total (inst : Instance) (js : List ItemId) :
    ∀ pos : List ItemId,
      (∀ j ∈ js, 0 ≤ inst.stack_of j ∧ inst.stack_of j < (pos.length : Int)) →
      ∃ pos1, advance_cursors inst js pos = some pos1 := by
  induction js with
  | nil =>
    intro pos _
    exact ⟨pos, rfl⟩
  | cons j js ih =>
    intro pos hjs
    obtain ⟨h0, h1⟩ := hjs j (List.mem_cons_self j js)
    have hlt : (inst.stack_of j).toNat < pos.length := by
      unfold StackId at *
      omega
    have hneg : ¬ inst.stack_of j < 0 := by
      unfold StackId at *
      omega
    have hstep : advance_cursor pos (inst.stack_of j)
        = some (pos.set (inst.stack_of j).toNat (pos[(inst.stack_of j).toNat] + 1)) := by
      simp [advance_cursor, vec_at, hneg, List.getElem?_eq_getElem hlt]
    obtain ⟨pos1, hpos1⟩ := ih (pos.set (inst.stack_of j).toNat (pos[(inst.stack_of j).toNat] + 1))
      (fun k hk => by
        rw [List.length_set]
        exact hjs k (List.mem_cons_of_mem j hk))
    exact ⟨pos1, by simp only [advance_cursors, hstep, hpos1]⟩

theorem add_item_commits_items (inst : Instance) (S T : Solution) (i : Insertion)
    (h : add_item_commits inst S i T = true) (s : StackId) :
    items_of_stack inst s T.items_
      = items_of_stack inst s S.items_
        + ((i.placed.countP (fun j => inst.stack_of j == s) : Nat) : Int) := by
  simp only [add_item_commits, Bool.and_eq_true, beq_iff_eq] at h
  obtain ⟨⟨⟨⟨_, htake⟩, hdrop⟩, _⟩, _⟩ := h
  have hsplit : T.items_ = S.items_ ++ T.items_.drop S.items_.length := by
    conv_lhs => rw [← List.take_append_drop S.items_.length T.items_, htake]
  unfold items_of_stack
  rw [hsplit, List.countP_append, ← hdrop, List.countP_map]
  push_cast
  rfl

theorem add_item_commits_cursors (inst : Instance) (S T : Solution) (i : Insertion)
    (h : add_item_commits inst S i T = true) :
    advance_cursors inst i.placed S.pos_stack_ = some T.pos_stack_ := by
  simp only [add_item_commits, Bool.and_eq_true, beq_iff_eq] at h
  exact h.2

theorem reachable_cursors (inst : Instance) (S : Solution) (h : Reachable inst S) :
    S.pos_stack_.length = inst.stack_number
    ∧ ∀ s : StackId, 0 ≤ s → s < (inst.stack_number : Int) →
        S.pos_stack s = some (items_of_stack inst s S.items) := by
  induction h with
  | fresh =>
    refine ⟨by simp [Solution.fresh], ?_⟩
    intro s h0 hn
    exact vec_at_replicate inst.stack_number 0 s h0 hn
  | add_item S i T _ hstep ih =>
    have hcur := add_item_commits_cursors inst S T i hstep
    refine ⟨by rw [advance_cursors_length inst _ _ _ hcur, ih.1], ?_⟩
    intro s h0 hn
    have hread := advance_cursors_reads inst _ _ _ hcur s
    have hS := ih.2 s h0 hn
    unfold Solution.pos_stack Solution.items at *
    rw [hread, hS, add_item_commits_items inst S T i hstep s]
    rfl

/-- C3: across a commit the cursor of a stack never decreases; in every state
reached from a freshly constructed solution by commits, the cursor of each
stack of the instance equals the number of entries of `items()` whose item
belongs to that stack; and from such a state every insertion whose placed items
belong to stacks of the instance can be committed. -/
theorem stack_order (inst : Instance) :
    (∀ (S T : Solution) (i : Insertion), add_item_commits inst S i T = true →
      ∀ (s : StackId) (k : ItemId), S.pos_stack s = some k →
        ∃ k1, T.pos_stack s = some k1 ∧ k ≤ k1)
    ∧ (∀ S : Solution, Reachable inst S →
        ∀ s : StackId, 0 ≤ s → s < (inst.stack_number : Int) →
          S.pos_stack s = some (items_of_stack inst s S.items))
    ∧ (∀ S : Solution, Reachable inst S → ∀ i : Insertion,
        (∀ j ∈ i.placed, 0 ≤ inst.stack_of j ∧ inst.stack_of j < (inst.stack_number : Int)) →
          ∃ T, add_item_commits inst S i T = true) := by
  refine ⟨?_, ?_, ?_⟩
  · intro S T i hstep s k hk
    have hread := advance_cursors_reads inst _ _ _
      (add_item_commits_cursors inst S T i hstep) s
    unfold Solution.pos_stack at *
    rw [hread, hk]
    refine ⟨k + ((i.placed.countP (fun j => inst.stack_of j == s) : Nat) : Int), rfl, ?_⟩
    unfold ItemId at *
    omega
  · intro S hS
    exact (reachable_cursors inst S hS).2
  · intro S hS i hi
    have hlen := (reachable_cursors inst S hS).1
    obtain ⟨pos1, hpos1⟩ := advance_cursors_total inst i.placed S.pos_stack_
      (fun j hj => by rw [hlen]; exact hi j hj)
    refine ⟨{ S with
        nodes_ := S.nodes_ ++ [⟨-1, 0⟩]
        items_ := S.items_ ++ i.placed.map (fun j => ⟨j, (S.nodes_.length : Int)⟩)
        pos_stack_ := pos1 }, ?_⟩
    simp only [add_item_commits, Bool.and_eq_true, beq_iff_eq]
    refine ⟨⟨⟨⟨?_, ?_⟩, ?_⟩, ?_⟩, hpos1⟩
    · rw [List.isPrefixOf_iff_prefix]
      exact List.prefix_append _ _
    · simp
    · simp [Function.comp_def]
    · simp [Solution.node, vec_at]

/-- From the fresh solution of `two_stacks`, committing items 0 and 2 together
and then item 1 reaches `after_second_commit`, where the cursor of stack 0 reads
2 and the table holds two items of stack 0. -/
theorem stack_order_witness :
    add_item_commits two_stacks (Solution.fresh 2) place_0_and_2 after_first_commit = true
    ∧ add_item_commits two_stacks after_first_commit place_1 after_second_commit = true
    ∧ after_first_commit.pos_stack 0 = some 1
    ∧ (∃ k1, after_second_commit.pos_stack 0 = some k1 ∧ (1 : Int) ≤ k1)
    ∧ after_second_commit.pos_stack 0
        = some (items_of_stack two_stacks 0 after_second_commit.items)
    ∧ items_of_stack two_stacks 0 after_second_commit.items = 2 :=
  ⟨by decide, by decide, by decide,
   (stack_order two_stacks).1 after_first_commit after_second_commit place_1 (by decide)
     0 1 (by decide),
   (stack_order two_stacks).2.1 after_second_commit
     (Reachable.add_item after_first_commit place_1 after_second_commit
       (Reachable.add_item (Solution.fresh 2) place_0_and_2 after_first_commit
         Reachable.fresh (by decide))
       (by decide))
     0 (by decide) (by decide),
   by decide⟩

end roadef2018
